import Mathlib

/-!
Verification of the moderation / ban module of `src/server/routes/system.ts`
(fiora chat backend).  The handlers `sealUser`, `sealIp`, `sealUserOnlineIp`,
`getSealList` and the token cache `getBaiduToken` are embedded shallowly as
pure Lean functions over an explicit state.  The memory store
(`../memoryData`, not part of the given sources) is modelled from the spec as
a per-namespace key set; `setTimeout` scheduling is modelled as a list of
pending removal records carrying the deadline `now + timeout`.
-/

namespace Fiora

/-- The storage namespaces of the memory data store, from
`MemoryDataStorageKey` as used in `system.ts`. -/
inductive MemoryDataStorageKey where
  | SealUserList
  | SealIpList
deriving DecidableEq, Repr

/-- A pending `setTimeout` callback: in `system.ts` every scheduled callback
deletes one key from one namespace, so it is represented by the namespace,
the key and the instant at which it is due (registration time + delay). -/
structure Timer where
  storageKey : MemoryDataStorageKey
  value : String
  fireAt : Int
deriving DecidableEq, Repr

/-- The mutable in-process state touched by the seal handlers: the two key
sets of the memory store plus the pending removal timers. -/
structure SysState where
  sealUserData : List String
  sealIpData : List String
  timers : List Timer
deriving DecidableEq, Repr

/-- Modelled from the spec: `existMemoryData` of the `../memoryData`
collaborator (not in the given sources) — a pure existence check on the
namespace's key set. -/
def existMemoryData (s : SysState) (k : MemoryDataStorageKey) (v : String) : Bool :=
  match k with
  | .SealUserList => s.sealUserData.contains v
  | .SealIpList => s.sealIpData.contains v

/-- Modelled from the spec: `addMemoryData` of the `../memoryData`
collaborator — records the key in the namespace's key set. -/
def addMemoryData (s : SysState) (k : MemoryDataStorageKey) (v : String) : SysState :=
  match k with
  | .SealUserList => { s with sealUserData := v :: s.sealUserData }
  | .SealIpList => { s with sealIpData := v :: s.sealIpData }

/-- Modelled from the spec: `deleteMemoryData` of the `../memoryData`
collaborator — removes the key from the namespace's key set; idempotent. -/
def deleteMemoryData (s : SysState) (k : MemoryDataStorageKey) (v : String) : SysState :=
  match k with
  | .SealUserList => { s with sealUserData := s.sealUserData.filter (· ≠ v) }
  | .SealIpList => { s with sealIpData := s.sealIpData.filter (· ≠ v) }

/-- Modelled from the spec: `getMemoryData` — the namespace's key set
(`.keys()` of the underlying map). -/
def getMemoryData (s : SysState) (k : MemoryDataStorageKey) : List String :=
  match k with
  | .SealUserList => s.sealUserData
  | .SealIpList => s.sealIpData

/-- `setTimeout(() => deleteMemoryData(k, v), delay)` registered at instant
`now`: appends a pending removal due at `now + delay`. -/
def setTimeoutDelete (s : SysState) (k : MemoryDataStorageKey) (v : String)
    (now delay : Int) : SysState :=
  { s with timers := s.timers ++ [⟨k, v, now + delay⟩] }

/-- Error string `CantSealLocalIp` from `system.ts`. -/
def CantSealLocalIp : String := "不能封禁内网ip"

/-- Error string `CantSealSelf` from `system.ts`. -/
def CantSealSelf : String := "闲的没事封自己干啥"

/-- Error string `IpInSealList` from `system.ts`. -/
def IpInSealList : String := "ip已在封禁名单"

/-- Assertion message of `sealUser` for an empty username. -/
def UsernameEmptyMsg : String := "username不能为空"

/-- Assertion message of `sealUser` for an unknown user. -/
def UserNotFoundMsg : String := "用户不存在"

/-- Assertion message of `sealUser` for an already sealed user. -/
def UserInSealListMsg : String := "用户已在封禁名单"

/-- `sealUser` from `system.ts`: validates the username, resolves it to a
user id via `User.findOne` (passed in as `findUser`), rejects duplicates,
then records the id in `SealUserList` and schedules its removal after
`SealUserTimeout` (passed in as `sealUserTimeout`; the constant lives in
`utils/const`, outside the given sources).  A failed `assert` throws before
any mutation, so the state is returned unchanged on every error. -/
def sealUser (findUser : String → Option String) (sealUserTimeout now : Int)
    (username : String) (s : SysState) : Except String Unit × SysState :=
  if username = "" then (.error UsernameEmptyMsg, s)
  else
    match findUser username with
    | none => (.error UserNotFoundMsg, s)
    | some userId =>
      if existMemoryData s .SealUserList userId then (.error UserInSealListMsg, s)
      else
        let s1 := addMemoryData s .SealUserList userId
        let s2 := setTimeoutDelete s1 .SealUserList userId now sealUserTimeout
        (.ok (), s2)

/-- `sealIp` from `system.ts`: rejects loopback addresses, the requester's
own address (`ctx.socket.ip`) and duplicates, then records the ip in
`SealIpList` and schedules its removal after `SealIpTimeout`. -/
def sealIp (sealIpTimeout now : Int) (ip requesterIp : String) (s : SysState) :
    Except String Unit × SysState :=
  if ip = "::1" ∨ ip = "127.0.0.1" then (.error CantSealLocalIp, s)
  else if ip = requesterIp then (.error CantSealSelf, s)
  else if existMemoryData s .SealIpList ip then (.error IpInSealList, s)
  else
    let s1 := addMemoryData s .SealIpList ip
    let s2 := setTimeoutDelete s1 .SealIpList ip now sealIpTimeout
    (.ok (), s2)

/-- The `ipList.forEach` body of `sealUserOnlineIp`, threaded over the list:
a loopback or requester-equal address only overwrites `errorMessage`; any
other address not yet sealed is recorded and gets a removal scheduled. -/
def sealOnlineLoop (requesterIp : String) (sealIpTimeout now : Int) :
    List String → String → SysState → String × SysState
  | [], errorMessage, s => (errorMessage, s)
  | ip :: rest, errorMessage, s =>
    if ip = "::1" ∨ ip = "127.0.0.1" then
      sealOnlineLoop requesterIp sealIpTimeout now rest CantSealLocalIp s
    else if ip = requesterIp then
      sealOnlineLoop requesterIp sealIpTimeout now rest CantSealSelf s
    else if existMemoryData s .SealIpList ip then
      sealOnlineLoop requesterIp sealIpTimeout now rest errorMessage s
    else
      sealOnlineLoop requesterIp sealIpTimeout now rest errorMessage
        (setTimeoutDelete (addMemoryData s .SealIpList ip) .SealIpList ip now sealIpTimeout)

/-- `sealUserOnlineIp` from `system.ts`: fetches the target's live socket
addresses via `Socket.find` (passed in as `findSocketIps`), asserts that not
every one of them is already sealed, then runs the per-address loop; if the
loop recorded a violation message the handler returns it instead of the
success payload. -/
def sealUserOnlineIp (findSocketIps : String → List String) (sealIpTimeout now : Int)
    (userId requesterIp : String) (s : SysState) : Except String Unit × SysState :=
  let ipList := findSocketIps userId
  if ipList.all (fun ip => existMemoryData s .SealIpList ip) then
    (.error IpInSealList, s)
  else
    let r := sealOnlineLoop requesterIp sealIpTimeout now ipList "" s
    if r.1 ≠ "" then (.error r.1, r.2) else (.ok (), r.2)

/-- A row of the `User` collection as consumed by `getSealList`:
the id the store keys on and the display username. -/
structure UserRec where
  _id : String
  username : String
deriving DecidableEq, Repr

/-- `getSealList` from `system.ts`: takes the keys of both namespaces,
resolves the sealed user ids back to usernames via
`User.find({_id: {$in: userIds}})` over the user table, and returns the
sealed ip keys raw. -/
def getSealList (userTable : List UserRec) (s : SysState) : List String × List String :=
  let userIds := getMemoryData s .SealUserList
  let users := userTable.filter (fun u => userIds.contains u._id)
  (users.map (fun u => u.username), getMemoryData s .SealIpList)

/-- The module-level token cache of `system.ts`: `baiduToken` (initially the
empty string) and `lastBaiduTokenTime`. -/
structure TokenState where
  baiduToken : String
  lastBaiduTokenTime : Int
deriving DecidableEq, Repr

/-- A successful response of the token endpoint: `access_token` and
`expires_in` (seconds). -/
structure FetchResult where
  access_token : String
  expires_in : Int
deriving DecidableEq, Repr

/-- `getBaiduToken` from `system.ts`.  `fetch` is the outcome of the axios
call (an `assert` turns a non-200 status into an error); `now1` is
`Date.now()` at the cache check, `now2` is `Date.now()` after the fetch
returned.  The result carries the returned token (or the propagated fetch
error), the new cache state, and whether a fetch was performed. -/
def getBaiduToken (fetch : Except String FetchResult) (now1 now2 : Int)
    (ts : TokenState) : Except String String × TokenState × Bool :=
  if ts.baiduToken ≠ "" ∧ now1 < ts.lastBaiduTokenTime then
    (.ok ts.baiduToken, ts, false)
  else
    match fetch with
    | .error e => (.error e, ts, true)
    | .ok r =>
      let ts1 : TokenState :=
        { baiduToken := r.access_token
          lastBaiduTokenTime := now2 + (r.expires_in - 60 * 60 * 24) * 1000 }
      (.ok r.access_token, ts1, true)

/-- An address the `sealUserOnlineIp` loop refuses to seal: loopback or the
requester's own address. -/
def isViolating (requesterIp ip : String) : Bool :=
  ip = "::1" || ip = "127.0.0.1" || ip = requesterIp

/-- The violation message the loop records for a violating address. -/
def violationMsg (requesterIp ip : String) : String :=
  if ip = "::1" ∨ ip = "127.0.0.1" then CantSealLocalIp
  else if ip = requesterIp then CantSealSelf
  else ""

/-! ### Basic store lemmas -/

theorem existMemoryData_setTimeoutDelete (s : SysState) (k k2 : MemoryDataStorageKey)
    (v w : String) (now delay : Int) :
    existMemoryData (setTimeoutDelete s k2 v now delay) k w = existMemoryData s k w := by
  cases k <;> rfl

theorem existMemoryData_addIp (s : SysState) (v k : String) :
    existMemoryData (addMemoryData s .SealIpList v) .SealIpList k
      = (k == v || existMemoryData s .SealIpList k) := rfl

theorem existMemoryData_addUser (s : SysState) (v k : String) :
    existMemoryData (addMemoryData s .SealUserList v) .SealUserList k
      = (k == v || existMemoryData s .SealUserList k) := rfl

theorem existMemoryData_iff_mem_ip (s : SysState) (k : String) :
    existMemoryData s .SealIpList k = true ↔ k ∈ s.sealIpData :=
  List.elem_iff

theorem existMemoryData_iff_mem_user (s : SysState) (k : String) :
    existMemoryData s .SealUserList k = true ↔ k ∈ s.sealUserData :=
  List.elem_iff

/-! ### Claim theorems: `sealIp` and `sealUser` -/

/-- C3: for every `ip` and `requesterIp`, `sealIp` fails with `LocalAddress`
when `ip` is `::1` or `127.0.0.1` regardless of ban-list state; otherwise
fails with `SelfSeal` when `ip = requesterIp`; otherwise fails with
`AlreadyBanned` when `ip` is already in `SealedIPs`; otherwise inserts `ip`
(and nothing else) into `SealedIPs` and succeeds. -/
theorem sealIp_cases (sealIpTimeout now : Int) (ip requesterIp : String) (s : SysState) :
    ((ip = "::1" ∨ ip = "127.0.0.1") →
      sealIp sealIpTimeout now ip requesterIp s = (.error CantSealLocalIp, s)) ∧
    (¬(ip = "::1" ∨ ip = "127.0.0.1") → ip = requesterIp →
      sealIp sealIpTimeout now ip requesterIp s = (.error CantSealSelf, s)) ∧
    (¬(ip = "::1" ∨ ip = "127.0.0.1") → ip ≠ requesterIp →
      existMemoryData s .SealIpList ip = true →
      sealIp sealIpTimeout now ip requesterIp s = (.error IpInSealList, s)) ∧
    (¬(ip = "::1" ∨ ip = "127.0.0.1") → ip ≠ requesterIp →
      existMemoryData s .SealIpList ip = false →
      (sealIp sealIpTimeout now ip requesterIp s).1 = .ok () ∧
      ∀ k, existMemoryData (sealIp sealIpTimeout now ip requesterIp s).2 .SealIpList k
        = (k == ip || existMemoryData s .SealIpList k)) := by
  refine ⟨fun h => ?_, fun h1 h2 => ?_, fun h1 h2 h3 => ?_, fun h1 h2 h3 => ?_⟩
  · simp [sealIp, h]
  · subst h2; simp [sealIp, h1]
  · simp [sealIp, h1, h2, h3]
  · constructor
    · simp [sealIp, h1, h2, h3]
    · intro k
      simp only [sealIp, h1, h2, h3, if_false, if_neg, Bool.false_eq_true]
      simp [existMemoryData_setTimeoutDelete, existMemoryData_addIp, h1, h2, h3]

/-- C4: for every `username`, `sealUser` fails with `InvalidInput` when the
username is empty; fails with `NotFound` when the identity lookup finds no
user; fails with `AlreadyBanned` when the resolved identity is already in
`SealedUsers`; otherwise inserts the resolved identity (and only it — not
the username) into `SealedUsers` and succeeds. -/
theorem sealUser_cases (findUser : String → Option String) (sealUserTimeout now : Int)
    (username : String) (s : SysState) :
    (username = "" →
      sealUser findUser sealUserTimeout now username s = (.error UsernameEmptyMsg, s)) ∧
    (username ≠ "" → findUser username = none →
      sealUser findUser sealUserTimeout now username s = (.error UserNotFoundMsg, s)) ∧
    (∀ userId, username ≠ "" → findUser username = some userId →
      existMemoryData s .SealUserList userId = true →
      sealUser findUser sealUserTimeout now username s = (.error UserInSealListMsg, s)) ∧
    (∀ userId, username ≠ "" → findUser username = some userId →
      existMemoryData s .SealUserList userId = false →
      (sealUser findUser sealUserTimeout now username s).1 = .ok () ∧
      ∀ k, existMemoryData (sealUser findUser sealUserTimeout now username s).2 .SealUserList k
        = (k == userId || existMemoryData s .SealUserList k)) := by
  refine ⟨fun h => ?_, fun h1 h2 => ?_, fun userId h1 h2 h3 => ?_,
    fun userId h1 h2 h3 => ⟨?_, fun k => ?_⟩⟩
  · simp [sealUser, h]
  · simp [sealUser, h1, h2]
  · simp [sealUser, h1, h2, h3]
  · simp [sealUser, h1, h2, h3]
  · simp [sealUser, h1, h2, h3, existMemoryData_setTimeoutDelete, existMemoryData_addUser]

/-- Closed witness for `sealIp_cases`: concrete instances of all four
branches, each obtained by applying the theorem. -/
theorem sealIp_cases_witness :
    (sealIp 5 0 "127.0.0.1" "1.2.3.4" ⟨[], [], []⟩ = (.error CantSealLocalIp, ⟨[], [], []⟩)) ∧
    (sealIp 5 0 "1.2.3.4" "1.2.3.4" ⟨[], [], []⟩ = (.error CantSealSelf, ⟨[], [], []⟩)) ∧
    (sealIp 5 0 "8.8.8.8" "1.2.3.4" ⟨[], ["8.8.8.8"], []⟩
      = (.error IpInSealList, ⟨[], ["8.8.8.8"], []⟩)) ∧
    (sealIp 5 0 "8.8.8.8" "1.2.3.4" ⟨[], [], []⟩).1 = .ok () ∧
    existMemoryData (sealIp 5 0 "8.8.8.8" "1.2.3.4" ⟨[], [], []⟩).2 .SealIpList "8.8.8.8"
      = true := by
  refine ⟨(sealIp_cases 5 0 "127.0.0.1" "1.2.3.4" ⟨[], [], []⟩).1 (by decide),
    (sealIp_cases 5 0 "1.2.3.4" "1.2.3.4" ⟨[], [], []⟩).2.1 (by decide) rfl,
    (sealIp_cases 5 0 "8.8.8.8" "1.2.3.4" ⟨[], ["8.8.8.8"], []⟩).2.2.1
      (by decide) (by decide) (by decide),
    ((sealIp_cases 5 0 "8.8.8.8" "1.2.3.4" ⟨[], [], []⟩).2.2.2
      (by decide) (by decide) (by decide)).1, ?_⟩
  have h := ((sealIp_cases 5 0 "8.8.8.8" "1.2.3.4" ⟨[], [], []⟩).2.2.2
    (by decide) (by decide) (by decide)).2 "8.8.8.8"
  simp at h
  simp [h]

/-- Closed witness for `sealUser_cases`: concrete instances of all four
branches, each obtained by applying the theorem. -/
theorem sealUser_cases_witness :
    (sealUser (fun n => if n = "alice" then some "id1" else none) 5 0 "" ⟨[], [], []⟩
      = (.error UsernameEmptyMsg, ⟨[], [], []⟩)) ∧
    (sealUser (fun n => if n = "alice" then some "id1" else none) 5 0 "bob" ⟨[], [], []⟩
      = (.error UserNotFoundMsg, ⟨[], [], []⟩)) ∧
    (sealUser (fun n => if n = "alice" then some "id1" else none) 5 0 "alice" ⟨["id1"], [], []⟩
      = (.error UserInSealListMsg, ⟨["id1"], [], []⟩)) ∧
    (sealUser (fun n => if n = "alice" then some "id1" else none) 5 0 "alice" ⟨[], [], []⟩).1
      = .ok () ∧
    existMemoryData
      (sealUser (fun n => if n = "alice" then some "id1" else none) 5 0 "alice" ⟨[], [], []⟩).2
      .SealUserList "id1" = true := by
  refine ⟨(sealUser_cases _ 5 0 "" ⟨[], [], []⟩).1 rfl,
    (sealUser_cases _ 5 0 "bob" ⟨[], [], []⟩).2.1 (by decide) (by decide),
    (sealUser_cases _ 5 0 "alice" ⟨["id1"], [], []⟩).2.2.1 "id1" (by decide) (by decide)
      (by decide),
    ((sealUser_cases _ 5 0 "alice" ⟨[], [], []⟩).2.2.2 "id1" (by decide) (by decide)
      (by decide)).1, ?_⟩
  have h := ((sealUser_cases (fun n => if n = "alice" then some "id1" else none)
    5 0 "alice" ⟨[], [], []⟩).2.2.2 "id1" (by decide) (by decide) (by decide)).2 "id1"
  simp at h
  simp [h]

/-- C5: every failing invocation of `sealUser` or `sealIp` returns the state
completely unchanged — the key sets and, in particular, the pending removal
timers, so no removal is scheduled and a duplicate attempt neither
overwrites the existing entry nor extends its expiry: any timer armed for
the original insert (due at its original insert time plus the TTL) is still
the only one pending. -/
theorem seal_failure_leaves_state (findUser : String → Option String)
    (sealUserTimeout sealIpTimeout now : Int) (username ip requesterIp : String)
    (s : SysState) :
    (∀ e, (sealUser findUser sealUserTimeout now username s).1 = .error e →
      (sealUser findUser sealUserTimeout now username s).2 = s) ∧
    (∀ e, (sealIp sealIpTimeout now ip requesterIp s).1 = .error e →
      (sealIp sealIpTimeout now ip requesterIp s).2 = s) := by
  constructor
  · intro e he
    by_cases h1 : username = ""
    · simp [sealUser, h1]
    · cases hf : findUser username with
      | none => simp [sealUser, h1, hf]
      | some uid =>
        by_cases h3 : existMemoryData s .SealUserList uid = true
        · simp [sealUser, h1, hf, h3]
        · exfalso
          simp [sealUser, h1, hf, h3] at he
  · intro e he
    by_cases h1 : ip = "::1" ∨ ip = "127.0.0.1"
    · simp [sealIp, h1]
    · by_cases h2 : ip = requesterIp
      · subst h2; simp [sealIp, h1]
      · by_cases h3 : existMemoryData s .SealIpList ip = true
        · simp [sealIp, h1, h2, h3]
        · exfalso
          simp [sealIp, h1, h2, h3] at he

/-- Closed witness for `seal_failure_leaves_state`: a duplicate `sealIp`
attempt on an already sealed ip (with its original expiry timer pending)
and a duplicate `sealUser` attempt both leave the state — timer included —
exactly as it was. -/
theorem seal_failure_leaves_state_witness :
    (sealUser (fun _ => some "id1") 7 3 "alice"
        ⟨["id1"], ["8.8.8.8"], [⟨.SealIpList, "8.8.8.8", 2⟩]⟩).2
      = ⟨["id1"], ["8.8.8.8"], [⟨.SealIpList, "8.8.8.8", 2⟩]⟩ ∧
    (sealIp 7 3 "8.8.8.8" "1.2.3.4"
        ⟨["id1"], ["8.8.8.8"], [⟨.SealIpList, "8.8.8.8", 2⟩]⟩).2
      = ⟨["id1"], ["8.8.8.8"], [⟨.SealIpList, "8.8.8.8", 2⟩]⟩ :=
  ⟨(seal_failure_leaves_state (fun _ => some "id1") 7 7 3 "alice" "8.8.8.8" "1.2.3.4"
      ⟨["id1"], ["8.8.8.8"], [⟨.SealIpList, "8.8.8.8", 2⟩]⟩).1 UserInSealListMsg rfl,
   (seal_failure_leaves_state (fun _ => some "id1") 7 7 3 "alice" "8.8.8.8" "1.2.3.4"
      ⟨["id1"], ["8.8.8.8"], [⟨.SealIpList, "8.8.8.8", 2⟩]⟩).2 IpInSealList rfl⟩

/-- C7: `getBaiduToken` returns the cached token with no fetch whenever a
token is stored (non-empty) and the checking instant is before
`lastBaiduTokenTime`; otherwise it performs the fetch and, on a successful
fetch, stores the new token with the deadline
`now + expires_in·1000 − 86400·1000` (provider TTL minus the one-day safety
margin, in milliseconds) and returns the new token. -/
theorem getBaiduToken_spec (fetch : Except String FetchResult) (r : FetchResult)
    (now1 now2 : Int) (ts : TokenState) :
    (ts.baiduToken ≠ "" → now1 < ts.lastBaiduTokenTime →
      getBaiduToken fetch now1 now2 ts = (.ok ts.baiduToken, ts, false)) ∧
    (¬(ts.baiduToken ≠ "" ∧ now1 < ts.lastBaiduTokenTime) →
      getBaiduToken (.ok r) now1 now2 ts =
        (.ok r.access_token,
          ⟨r.access_token, now2 + (r.expires_in - 60 * 60 * 24) * 1000⟩, true)) := by
  constructor
  · intro h1 h2
    simp [getBaiduToken, h1, h2]
  · intro h
    simp only [getBaiduToken, if_neg h]

/-- Closed witness for `getBaiduToken_spec`: a cache hit performs no fetch
and returns the stored token; an expired cache stores the fetched token with
the margin-adjusted deadline and reports the fetch. -/
theorem getBaiduToken_spec_witness :
    getBaiduToken (.ok ⟨"t2", 100000⟩) 5 6 ⟨"t1", 10⟩ = (.ok "t1", ⟨"t1", 10⟩, false) ∧
    getBaiduToken (.ok ⟨"t2", 100000⟩) 15 16 ⟨"t1", 10⟩
      = (.ok "t2", ⟨"t2", 16 + (100000 - 60 * 60 * 24) * 1000⟩, true) :=
  ⟨(getBaiduToken_spec (.ok ⟨"t2", 100000⟩) ⟨"t2", 100000⟩ 5 6 ⟨"t1", 10⟩).1
      (by decide) (by decide),
   (getBaiduToken_spec (.ok ⟨"t2", 100000⟩) ⟨"t2", 100000⟩ 15 16 ⟨"t1", 10⟩).2
      (by simp)⟩

/-- C10: when the socket-registry lookup for the target user returns an
empty address set, `sealUserOnlineIp` fails with the duplicate-ban message
`ip已在封禁名单` (the all-sealed guard's quantification is vacuously true on
the empty set) and leaves the state unchanged. -/
theorem sealUserOnlineIp_offline (findSocketIps : String → List String)
    (sealIpTimeout now : Int) (userId requesterIp : String) (s : SysState)
    (h : findSocketIps userId = []) :
    sealUserOnlineIp findSocketIps sealIpTimeout now userId requesterIp s
      = (.error IpInSealList, s) := by
  simp [sealUserOnlineIp, h]

/-- Closed witness for `sealUserOnlineIp_offline` at a concrete offline
user and non-empty store. -/
theorem sealUserOnlineIp_offline_witness :
    sealUserOnlineIp (fun _ => []) 7 3 "u1" "1.2.3.4" ⟨[], ["8.8.8.8"], []⟩
      = (.error IpInSealList, ⟨[], ["8.8.8.8"], []⟩) :=
  sealUserOnlineIp_offline (fun _ => []) 7 3 "u1" "1.2.3.4" ⟨[], ["8.8.8.8"], []⟩ rfl

/-! ### The `sealUserOnlineIp` loop -/

theorem isViolating_of_local (requesterIp ip : String) (h : ip = "::1" ∨ ip = "127.0.0.1") :
    isViolating requesterIp ip = true := by
  rcases h with h | h <;> simp [isViolating, h]

theorem isViolating_of_self (requesterIp : String) :
    isViolating requesterIp requesterIp = true := by
  simp [isViolating]

theorem isViolating_eq_false (requesterIp ip : String)
    (h1 : ¬(ip = "::1" ∨ ip = "127.0.0.1")) (h2 : ip ≠ requesterIp) :
    isViolating requesterIp ip = false := by
  push_neg at h1
  simp [isViolating, h1.1, h1.2, h2]

theorem violationMsg_local (requesterIp ip : String) (h : ip = "::1" ∨ ip = "127.0.0.1") :
    violationMsg requesterIp ip = CantSealLocalIp := by
  simp [violationMsg, h]

theorem violationMsg_self (requesterIp ip : String)
    (h1 : ¬(ip = "::1" ∨ ip = "127.0.0.1")) (h2 : ip = requesterIp) :
    violationMsg requesterIp ip = CantSealSelf := by
  subst h2
  simp [violationMsg, h1]

theorem violationMsg_ne_empty (requesterIp v : String) (h : isViolating requesterIp v = true) :
    violationMsg requesterIp v ≠ "" := by
  by_cases h1 : v = "::1" ∨ v = "127.0.0.1"
  · rw [violationMsg_local _ _ h1]
    decide
  · have h2 : v = requesterIp := by
      simp [isViolating] at h
      tauto
    rw [violationMsg_self _ _ h1 h2]
    decide

/-- Membership in `SealedIPs` after the per-address loop: a key is present
afterwards iff it was present before or it occurs in the processed list and
is not a violating (loopback / requester) address. -/
theorem sealOnlineLoop_exist (requesterIp : String) (sealIpTimeout now : Int)
    (ips : List String) (err : String) (s : SysState) (k : String) :
    existMemoryData (sealOnlineLoop requesterIp sealIpTimeout now ips err s).2 .SealIpList k
      = (existMemoryData s .SealIpList k
          || (ips.contains k && !isViolating requesterIp k)) := by
  induction ips generalizing err s with
  | nil => simp [sealOnlineLoop]
  | cons ip rest ih =>
    by_cases h1 : ip = "::1" ∨ ip = "127.0.0.1"
    · rw [sealOnlineLoop, if_pos h1, ih]
      by_cases hk : k = ip
      · subst hk
        simp [isViolating_of_local _ _ h1]
      · simp [List.contains_cons, hk]
    · rw [sealOnlineLoop, if_neg h1]
      by_cases h2 : ip = requesterIp
      · rw [if_pos h2, ih]
        by_cases hk : k = ip
        · subst hk
          subst h2
          simp [isViolating_of_self]
        · simp [List.contains_cons, hk]
      · rw [if_neg h2]
        by_cases h3 : existMemoryData s .SealIpList ip = true
        · rw [if_pos h3, ih]
          by_cases hk : k = ip
          · subst hk
            simp [h3]
          · simp [List.contains_cons, hk]
        · rw [if_neg h3, ih]
          rw [existMemoryData_setTimeoutDelete, existMemoryData_addIp]
          by_cases hk : k = ip
          · subst hk
            simp [isViolating_eq_false _ _ h1 h2]
          · have hke : (k == ip) = false := by
              simp [hk]
            simp [List.contains_cons, hk, hke]

/-- The violation message accumulated by the per-address loop: the message
of the last violating address of the list (none: the incoming value). -/
theorem sealOnlineLoop_err (requesterIp : String) (sealIpTimeout now : Int)
    (ips : List String) (err : String) (s : SysState) :
    (sealOnlineLoop requesterIp sealIpTimeout now ips err s).1
      = ((ips.reverse.find? fun ip => isViolating requesterIp ip).map
          (violationMsg requesterIp)).getD err := by
  induction ips generalizing err s with
  | nil => simp [sealOnlineLoop]
  | cons ip rest ih =>
    have hsingle : ∀ e : String,
        ((List.find? (fun x => isViolating requesterIp x) [ip]).map
          (violationMsg requesterIp)).getD e
        = if isViolating requesterIp ip = true then violationMsg requesterIp ip else e := by
      intro e
      cases h : isViolating requesterIp ip <;> simp [List.find?, h]
    have happ : ∀ e : String,
        (((rest.reverse ++ [ip]).find? fun x => isViolating requesterIp x).map
          (violationMsg requesterIp)).getD e
        = ((rest.reverse.find? fun x => isViolating requesterIp x).map
            (violationMsg requesterIp)).getD
            (if isViolating requesterIp ip = true then violationMsg requesterIp ip else e) := by
      intro e
      rw [List.find?_append]
      cases hfind : rest.reverse.find? fun x => isViolating requesterIp x with
      | none =>
        rw [Option.none_or]
        exact hsingle e
      | some v => simp
    by_cases h1 : ip = "::1" ∨ ip = "127.0.0.1"
    · rw [sealOnlineLoop, if_pos h1, ih, List.reverse_cons, happ,
        if_pos (isViolating_of_local _ _ h1), violationMsg_local _ _ h1]
    · rw [sealOnlineLoop, if_neg h1]
      by_cases h2 : ip = requesterIp
      · rw [if_pos h2, ih, List.reverse_cons, happ,
          if_pos (by rw [h2]; exact isViolating_of_self _), violationMsg_self _ _ h1 h2]
      · have hnv : isViolating requesterIp ip = false := isViolating_eq_false _ _ h1 h2
        rw [if_neg h2]
        by_cases h3 : existMemoryData s .SealIpList ip = true
        · rw [if_pos h3, ih, List.reverse_cons, happ, hnv]
          simp
        · rw [if_neg h3, ih, List.reverse_cons, happ, hnv]
          simp

/-- C1 refutation: the target's live addresses are `["9.9.9.9"]` and the
requester's address is `9.9.9.9`, so the set contains an address equal to
the requester's; but that address is already sealed, so the all-sealed
guard preempts the loop and the call returns the duplicate-ban message, not
the self-seal violation message (and not success). -/
theorem sealUserOnlineIp_violation_preempted :
    (sealUserOnlineIp (fun _ => ["9.9.9.9"]) 7 3 "u1" "9.9.9.9" ⟨[], ["9.9.9.9"], []⟩
      = (.error IpInSealList, ⟨[], ["9.9.9.9"], []⟩)) ∧
    IpInSealList ≠ CantSealSelf ∧ IpInSealList ≠ CantSealLocalIp :=
  ⟨rfl, by decide, by decide⟩

/-- C1 (amended): provided not every address of the target's set is already
sealed (so the all-sealed guard does not preempt the loop), if the set
contains a violating address — loopback or equal to the requester's — the
call returns the violation message of the last such address instead of
success, while exactly the addresses that are neither violating nor already
sealed are inserted into `SealedIPs` in the same pass. -/
theorem sealUserOnlineIp_lastViolation (findSocketIps : String → List String)
    (sealIpTimeout now : Int) (userId requesterIp v : String) (s : SysState)
    (hguard : ((findSocketIps userId).all fun ip => existMemoryData s .SealIpList ip) = false)
    (hv : (findSocketIps userId).reverse.find? (fun ip => isViolating requesterIp ip)
      = some v) :
    (sealUserOnlineIp findSocketIps sealIpTimeout now userId requesterIp s).1
      = .error (violationMsg requesterIp v) ∧
    ∀ k, existMemoryData
        (sealUserOnlineIp findSocketIps sealIpTimeout now userId requesterIp s).2
        .SealIpList k
      = (existMemoryData s .SealIpList k
          || ((findSocketIps userId).contains k && !isViolating requesterIp k)) := by
  have hviol : isViolating requesterIp v = true := List.find?_some hv
  have herr : (sealOnlineLoop requesterIp sealIpTimeout now (findSocketIps userId) "" s).1
      = violationMsg requesterIp v := by
    rw [sealOnlineLoop_err, hv]
    rfl
  have hnemp := violationMsg_ne_empty _ _ hviol
  have key : sealUserOnlineIp findSocketIps sealIpTimeout now userId requesterIp s
      = (.error (violationMsg requesterIp v),
         (sealOnlineLoop requesterIp sealIpTimeout now (findSocketIps userId) "" s).2) := by
    simp only [sealUserOnlineIp, hguard, Bool.false_eq_true, if_false, herr, ne_eq, hnemp,
      not_false_eq_true, if_true]
  constructor
  · rw [key]
  · intro k
    rw [key]
    exact sealOnlineLoop_exist requesterIp sealIpTimeout now (findSocketIps userId) "" s k

/-- Closed witness for `sealUserOnlineIp_lastViolation`: sockets at a loopback
address and a clean address; the call reports the local-address violation
while the clean address is sealed as a side effect. -/
theorem sealUserOnlineIp_lastViolation_witness :
    (sealUserOnlineIp (fun _ => ["::1", "5.5.5.5"]) 7 3 "u1" "1.2.3.4" ⟨[], [], []⟩).1
      = .error CantSealLocalIp ∧
    existMemoryData
      (sealUserOnlineIp (fun _ => ["::1", "5.5.5.5"]) 7 3 "u1" "1.2.3.4" ⟨[], [], []⟩).2
      .SealIpList "5.5.5.5" = true := by
  have h := sealUserOnlineIp_lastViolation (fun _ => ["::1", "5.5.5.5"]) 7 3 "u1" "1.2.3.4" "::1"
    ⟨[], [], []⟩ (by decide) (by decide)
  refine ⟨?_, ?_⟩
  · rw [h.1]
    rfl
  · rw [h.2 "5.5.5.5"]
    decide

/-- C6 refutation: with the target's only live address already sealed, the
bulk call's all-sealed failure carries exactly the same message as the
per-address duplicate (`AlreadyBanned`) failure of `sealIp` — the code
reuses the one `IpInSealList` string, so the bulk error is not distinct. -/
theorem sealUserOnlineIp_allSealed_same_message :
    (sealUserOnlineIp (fun _ => ["6.6.6.6"]) 7 3 "u1" "1.2.3.4" ⟨[], ["6.6.6.6"], []⟩).1
      = .error IpInSealList ∧
    (sealIp 7 3 "6.6.6.6" "1.2.3.4" ⟨[], ["6.6.6.6"], []⟩).1 = .error IpInSealList :=
  ⟨rfl, rfl⟩

/-- C6 (amended): when every address in the target's set is already sealed,
`sealUserOnlineIp` fails and leaves the state unchanged, but with the very
message (`ip已在封禁名单`) that `sealIp` uses for a per-address duplicate —
not a distinct error. -/
theorem sealUserOnlineIp_allSealed (findSocketIps : String → List String)
    (sealIpTimeout now : Int) (userId requesterIp ip2 requesterIp2 : String) (s : SysState)
    (hall : ((findSocketIps userId).all fun ip => existMemoryData s .SealIpList ip) = true) :
    sealUserOnlineIp findSocketIps sealIpTimeout now userId requesterIp s
      = (.error IpInSealList, s) ∧
    (¬(ip2 = "::1" ∨ ip2 = "127.0.0.1") → ip2 ≠ requesterIp2 →
      existMemoryData s .SealIpList ip2 = true →
      (sealIp sealIpTimeout now ip2 requesterIp2 s).1 = .error IpInSealList) := by
  constructor
  · simp [sealUserOnlineIp, hall]
  · intro h1 h2 h3
    simp [sealIp, h1, h2, h3]

/-- Closed witness for `sealUserOnlineIp_allSealed`: both the bulk call on a
fully sealed set and a per-address duplicate `sealIp` produce the same
failure. -/
theorem sealUserOnlineIp_allSealed_witness :
    sealUserOnlineIp (fun _ => ["7.7.7.7"]) 7 3 "u1" "1.2.3.4" ⟨[], ["7.7.7.7"], []⟩
      = (.error IpInSealList, ⟨[], ["7.7.7.7"], []⟩) ∧
    (sealIp 7 3 "7.7.7.7" "1.2.3.4" ⟨[], ["7.7.7.7"], []⟩).1 = .error IpInSealList := by
  have h := sealUserOnlineIp_allSealed (fun _ => ["7.7.7.7"]) 7 3 "u1" "1.2.3.4" "7.7.7.7"
    "1.2.3.4" ⟨[], ["7.7.7.7"], []⟩ (by decide)
  exact ⟨h.1, h.2 (by decide) (by decide) (by decide)⟩

/-- C8 refutation: a user whose socket lookup yields the empty set — which
vacuously contains no loopback, no requester-equal and no sealed address —
is not reported as success: the vacuous all-sealed guard fails the call. -/
theorem sealUserOnlineIp_empty_not_success :
    (sealUserOnlineIp (fun _ => []) 9 4 "u2" "2.3.4.5" ⟨[], [], []⟩).1
      = .error IpInSealList :=
  rfl

/-- C8 (amended): for a user with a *non-empty* live socket-address set in
which no address is loopback, equal to the requester's, or already sealed,
`sealUserOnlineIp` inserts every address of the set into `SealedIPs` and
reports success. -/
theorem sealUserOnlineIp_success (findSocketIps : String → List String)
    (sealIpTimeout now : Int) (userId requesterIp : String) (s : SysState)
    (hne : findSocketIps userId ≠ [])
    (hclean : ∀ ip ∈ findSocketIps userId,
      isViolating requesterIp ip = false ∧ existMemoryData s .SealIpList ip = false) :
    (sealUserOnlineIp findSocketIps sealIpTimeout now userId requesterIp s).1 = .ok () ∧
    ∀ ip ∈ findSocketIps userId,
      existMemoryData (sealUserOnlineIp findSocketIps sealIpTimeout now userId requesterIp s).2
        .SealIpList ip = true := by
  obtain ⟨a, ha⟩ : ∃ a, a ∈ findSocketIps userId := by
    cases hl : findSocketIps userId with
    | nil => exact absurd hl hne
    | cons x xs =>
      exact ⟨x, hl ▸ List.mem_cons_self x xs⟩
  have hguard : ((findSocketIps userId).all fun ip => existMemoryData s .SealIpList ip)
      = false := by
    apply Bool.eq_false_iff.mpr
    intro hall
    rw [List.all_eq_true] at hall
    have hx := hall a ha
    rw [(hclean a ha).2] at hx
    exact Bool.false_ne_true hx
  have hfind : (findSocketIps userId).reverse.find? (fun ip => isViolating requesterIp ip)
      = none := by
    apply List.find?_eq_none.mpr
    intro x hx
    rw [List.mem_reverse] at hx
    simp [(hclean x hx).1]
  have herr : (sealOnlineLoop requesterIp sealIpTimeout now (findSocketIps userId) "" s).1
      = "" := by
    rw [sealOnlineLoop_err, hfind]
    rfl
  have key : sealUserOnlineIp findSocketIps sealIpTimeout now userId requesterIp s
      = (.ok (), (sealOnlineLoop requesterIp sealIpTimeout now (findSocketIps userId) "" s).2) := by
    simp only [sealUserOnlineIp, hguard, Bool.false_eq_true, if_false, herr, ne_eq,
      not_true_eq_false, if_false]
  constructor
  · rw [key]
  · intro ip hip
    rw [key]
    rw [sealOnlineLoop_exist]
    rw [(hclean ip hip).2, (hclean ip hip).1]
    simp [List.elem_iff, hip]

/-- Closed witness for `sealUserOnlineIp_success`: two clean addresses are
both sealed and the call succeeds. -/
theorem sealUserOnlineIp_success_witness :
    (sealUserOnlineIp (fun _ => ["3.3.3.3", "4.4.4.4"]) 7 3 "u1" "1.2.3.4" ⟨[], [], []⟩).1
      = .ok () ∧
    existMemoryData
      (sealUserOnlineIp (fun _ => ["3.3.3.3", "4.4.4.4"]) 7 3 "u1" "1.2.3.4" ⟨[], [], []⟩).2
      .SealIpList "3.3.3.3" = true ∧
    existMemoryData
      (sealUserOnlineIp (fun _ => ["3.3.3.3", "4.4.4.4"]) 7 3 "u1" "1.2.3.4" ⟨[], [], []⟩).2
      .SealIpList "4.4.4.4" = true := by
  have h := sealUserOnlineIp_success (fun _ => ["3.3.3.3", "4.4.4.4"]) 7 3 "u1" "1.2.3.4"
    ⟨[], [], []⟩ (by decide) (by decide)
  exact ⟨h.1, h.2 "3.3.3.3" (by decide), h.2 "4.4.4.4" (by decide)⟩

/-- C9: `getSealList` returns, as its first component, exactly the display
usernames of the user-table rows whose id is a key of `SealedUsers`
(resolution through the identity collaborator), and as its second the raw
`SealedIPs` key set; the username set depends only on the key set, not on
insertion order — a permutation of the sealed-user keys leaves the returned
usernames unchanged. -/
theorem getSealList_spec (userTable : List UserRec) (s s2 : SysState) :
    (∀ name, name ∈ (getSealList userTable s).1 ↔
      ∃ u ∈ userTable, u._id ∈ s.sealUserData ∧ u.username = name) ∧
    (getSealList userTable s).2 = s.sealIpData ∧
    (s.sealUserData.Perm s2.sealUserData →
      (getSealList userTable s).1 = (getSealList userTable s2).1) := by
  refine ⟨fun name => ?_, rfl, fun hperm => ?_⟩
  · simp only [getSealList, getMemoryData, List.mem_map, List.mem_filter, List.elem_iff]
    constructor
    · rintro ⟨u, ⟨hu, hid⟩, hn⟩
      exact ⟨u, hu, hid, hn⟩
    · rintro ⟨u, hu, hid, hn⟩
      exact ⟨u, ⟨hu, hid⟩, hn⟩
  · simp only [getSealList, getMemoryData]
    congr 1
    apply List.filter_congr
    intro u _
    rw [Bool.eq_iff_iff]
    simp only [List.elem_iff]
    exact hperm.mem_iff

/-- Closed witness for `getSealList_spec`: two sealed users listed in either
order resolve to the same usernames, and the sealed ip keys are returned
raw. -/
theorem getSealList_spec_witness :
    ("nameA" ∈ (getSealList [⟨"idA", "nameA"⟩, ⟨"idB", "nameB"⟩]
        ⟨["idA", "idB"], ["8.8.8.8"], []⟩).1 ↔
      ∃ u ∈ [(⟨"idA", "nameA"⟩ : UserRec), ⟨"idB", "nameB"⟩],
        u._id ∈ ["idA", "idB"] ∧ u.username = "nameA") ∧
    (getSealList [⟨"idA", "nameA"⟩, ⟨"idB", "nameB"⟩]
        ⟨["idA", "idB"], ["8.8.8.8"], []⟩).2 = ["8.8.8.8"] ∧
    (getSealList [⟨"idA", "nameA"⟩, ⟨"idB", "nameB"⟩]
        ⟨["idA", "idB"], ["8.8.8.8"], []⟩).1
      = (getSealList [⟨"idA", "nameA"⟩, ⟨"idB", "nameB"⟩]
        ⟨["idB", "idA"], ["8.8.8.8"], []⟩).1 := by
  have h := getSealList_spec [⟨"idA", "nameA"⟩, ⟨"idB", "nameB"⟩]
    ⟨["idA", "idB"], ["8.8.8.8"], []⟩ ⟨["idB", "idA"], ["8.8.8.8"], []⟩
  exact ⟨h.1 "nameA", h.2.1, h.2.2 (by decide)⟩

end Fiora
